import Mathlib

/-!
Verification of the grant matching and ranking engine.

Shallow embedding of the matching core:
- `is_deadline_valid` from backend/app/api/v1/grants.py (deadline validator),
- the funding-amount extraction and payload normalization used by the
  `search_grants` and `list_grants` routes in the same file,
- `GrantMatcher._filter_by_criteria` and `GrantMatcher._rank_grants` from
  backend/app/services/grant_matcher.py.

Modelling conventions:
- Python strings are `List Char`; `str.lower`/`str.strip` are modelled for
  ASCII (the sentinel and keyword comparisons in the source only involve
  ASCII letters).
- Python floats are modelled as exact rationals `ℚ`; every claim under
  consideration is about the structure of the arithmetic, not about binary
  rounding.
- A Python dict payload is a structure of `Option`-valued fields, `none`
  meaning the key is absent.  (A key that is present with value `None`
  behaves like an absent key at every use site modelled here.)
- `re.search` is modelled by trying the pattern at each start position from
  the left; the bounded quantifier `{1,2}` is greedy with backtracking,
  exactly as in CPython.  `$` accepts end-of-string or a single trailing
  newline.
- `datetime.fromisoformat(...)` and `datetime.now()` in the matcher are
  external library calls; their combined effect on a payload is modelled as
  a precomputed field `deadline_days : Option (Option Int)`: `none` when the
  "deadline" key is absent or falsy, `some none` when `fromisoformat`
  raises, and `some (some d)` when it parses with `d` the floored number of
  days until now (`timedelta.days` floors toward minus infinity, so the
  filter comparison `deadline < now` is exactly `d < 0`).
-/

namespace GrantGPT

/-! ### Character and string helpers (Python `str` operations, ASCII) -/

def toLowerChar (c : Char) : Char :=
  if 'A' ≤ c ∧ c ≤ 'Z' then Char.ofNat (c.toNat + 32) else c

def lowerStr (s : List Char) : List Char := s.map toLowerChar

def isSpaceChar (c : Char) : Bool :=
  c = ' ' || c = '\t' || c = '\n' || c = '\x0d' || c = '\x0b' || c = '\x0c'

/-- Python `str.strip()`: drop whitespace from both ends. -/
def stripStr (s : List Char) : List Char :=
  ((s.dropWhile isSpaceChar).reverse.dropWhile isSpaceChar).reverse

/-- Does `needle` occur at the start of `hay`? -/
def listStartsWith : List Char → List Char → Bool
  | [], _ => true
  | _ :: _, [] => false
  | a :: as, b :: bs => a = b && listStartsWith as bs

/-- Python `needle in hay` for strings: substring containment. -/
def containsSub (needle : List Char) : List Char → Bool
  | [] => needle.isEmpty
  | c :: t => listStartsWith needle (c :: t) || containsSub needle t

def isDigitChar (c : Char) : Bool := '0' ≤ c && c ≤ '9'

def digitVal (c : Char) : Nat := c.toNat - '0'.toNat

/-- Python `int(...)` on a digit string. -/
def natOfDigits (ds : List Char) : Nat :=
  ds.foldl (fun acc c => acc * 10 + digitVal c) 0

/-! ### Dates (the slice of `datetime.date` the validator uses) -/

structure PyDate where
  year : Nat
  month : Nat
  day : Nat
deriving DecidableEq, Repr

def isLeapYear (y : Nat) : Bool :=
  y % 4 = 0 && (y % 100 ≠ 0 || y % 400 = 0)

def daysInMonth (y m : Nat) : Nat :=
  if m = 2 then (if isLeapYear y then 29 else 28)
  else if m = 4 ∨ m = 6 ∨ m = 9 ∨ m = 11 then 30
  else 31

/-- The `date(y, m, d)` constructor: `some` on success, `none` when the
constructor would raise `ValueError` (month or day out of range, or year
outside `MINYEAR..MAXYEAR`). -/
def mkDate (y m d : Nat) : Option PyDate :=
  if 1 ≤ y ∧ y ≤ 9999 ∧ 1 ≤ m ∧ m ≤ 12 ∧ 1 ≤ d ∧ d ≤ daysInMonth y m
  then some ⟨y, m, d⟩ else none

/-- Date comparison `a <= b` (lexicographic on year, month, day). -/
def dateLe (a b : PyDate) : Bool :=
  decide (a.year < b.year ∨ (a.year = b.year ∧
    (a.month < b.month ∨ (a.month = b.month ∧ a.day ≤ b.day))))

/-! ### The five regex patterns of `is_deadline_valid`

Each per-position matcher returns the captured groups; `searchPos` gives
`re.search` leftmost semantics.  `takeDigits n` is the exact-count `\d{n}`;
`take12` is greedy `\d{1,2}` with backtracking into its continuation. -/

def takeDigits : Nat → List Char → Option (List Char × List Char)
  | 0, s => some ([], s)
  | _ + 1, [] => none
  | n + 1, c :: t =>
    if isDigitChar c then (takeDigits n t).map (fun p => (c :: p.1, p.2))
    else none

def expectChar (c : Char) : List Char → Option (List Char)
  | [] => none
  | a :: t => if a = c then some t else none

def take12 {α : Type} (s : List Char) (k : List Char × List Char → Option α) : Option α :=
  ((takeDigits 2 s).bind k).orElse (fun _ => (takeDigits 1 s).bind k)

def searchPos {α : Type} (f : List Char → Option α) : List Char → Option α
  | [] => f []
  | c :: t => (f (c :: t)).orElse (fun _ => searchPos f t)

/-- `$`: end of string, or just before one trailing newline. -/
def atLineEnd (s : List Char) : Bool := s = [] || s = ['\n']

/-- Pattern 1 at one position: `(\d{4})-(\d{2})-(\d{2})`, groups (y, m, d). -/
def matchIso (s : List Char) : Option (Nat × Nat × Nat) :=
  (takeDigits 4 s).bind (fun y =>
    (expectChar '-' y.2).bind (fun s1 =>
      (takeDigits 2 s1).bind (fun m =>
        (expectChar '-' m.2).bind (fun s2 =>
          (takeDigits 2 s2).map (fun d =>
            (natOfDigits y.1, natOfDigits m.1, natOfDigits d.1))))))

/-- Pattern 2 at one position: `(\d{1,2})\.(\d{1,2})\.(\d{4})`, groups (d, m, y). -/
def matchGerman (s : List Char) : Option (Nat × Nat × Nat) :=
  take12 s (fun d =>
    (expectChar '.' d.2).bind (fun s1 =>
      take12 s1 (fun m =>
        (expectChar '.' m.2).bind (fun s2 =>
          (takeDigits 4 s2).map (fun y =>
            (natOfDigits d.1, natOfDigits m.1, natOfDigits y.1))))))

/-- Pattern 3 at one position: `(\d{1,2})\.(\d{1,2})\.(\d{2})$`, groups (d, m, yy). -/
def matchShortGerman (s : List Char) : Option (Nat × Nat × Nat) :=
  take12 s (fun d =>
    (expectChar '.' d.2).bind (fun s1 =>
      take12 s1 (fun m =>
        (expectChar '.' m.2).bind (fun s2 =>
          (takeDigits 2 s2).bind (fun y =>
            if atLineEnd y.2 then
              some (natOfDigits d.1, natOfDigits m.1, natOfDigits y.1)
            else none)))))

/-- Pattern 4 at one position: `(\d{1,2})/(\d{4})`, groups (m, y). -/
def matchMonthYear (s : List Char) : Option (Nat × Nat) :=
  take12 s (fun m =>
    (expectChar '/' m.2).bind (fun s1 =>
      (takeDigits 4 s1).map (fun y => (natOfDigits m.1, natOfDigits y.1))))

/-- Pattern 5: `^(\d{4})$` (anchored, so no position scan). -/
def matchBareYear (s : List Char) : Option Nat :=
  (takeDigits 4 s).bind (fun y =>
    if atLineEnd y.2 then some (natOfDigits y.1) else none)

/-- Pattern 1 searched plus its date converter (`date(y, m, d)`);
outer `Option` is textual match, inner is constructor success. -/
def patIso (s : List Char) : Option (Option PyDate) :=
  (searchPos matchIso s).map (fun g => mkDate g.1 g.2.1 g.2.2)

def patGerman (s : List Char) : Option (Option PyDate) :=
  (searchPos matchGerman s).map (fun g => mkDate g.2.2 g.2.1 g.1)

def patShortGerman (s : List Char) : Option (Option PyDate) :=
  (searchPos matchShortGerman s).map (fun g => mkDate (2000 + g.2.2) g.2.1 g.1)

def patMonthYear (s : List Char) : Option (Option PyDate) :=
  (searchPos matchMonthYear s).map (fun g => mkDate g.2 g.1 28)

def patBareYear (s : List Char) : Option (Option PyDate) :=
  (matchBareYear s).map (fun y => mkDate y 12 31)

/-- The ordered pattern list of `is_deadline_valid`. -/
def datePatterns : List (List Char → Option (Option PyDate)) :=
  [patIso, patGerman, patShortGerman, patMonthYear, patBareYear]

/-- The for-loop over patterns: first textual match whose converter does not
raise decides the answer; a converter `ValueError` falls through to the next
pattern; no decisive pattern defaults to valid. -/
def tryPatterns (today : PyDate) : List (Option (Option PyDate)) → Bool
  | [] => true
  | some (some d) :: _ => dateLe today d
  | some none :: rest => tryPatterns today rest
  | none :: rest => tryPatterns today rest

def continuousSentinels : List (List Char) :=
  ["laufend".data, "fortlaufend".data, "keine".data, "unbefristet".data,
   "offen".data, "".data]

/-- `is_deadline_valid` (grants.py lines 12-55). `none` models Python `None`. -/
def is_deadline_valid (today : PyDate) : Option (List Char) → Bool
  | none => true
  | some s =>
    if s = [] then true
    else if stripStr (lowerStr s) ∈ continuousSentinels then true
    else tryPatterns today (datePatterns.map (fun p => p s))

/-! ### Funding-amount extraction (`re.findall(r'\d+(?:\.\d+)?', ...)`) -/

/-- Longest digit run at the front. -/
def takeDigitRun : List Char → (List Char × List Char)
  | [] => ([], [])
  | c :: t =>
    if isDigitChar c then
      ((takeDigitRun t).1.cons c, (takeDigitRun t).2)
    else ([], c :: t)

/-- `re.findall(r'\d+(?:\.\d+)?', s)`: leftmost non-overlapping matches,
greedy digit runs with an optional single decimal part.  The fuel argument
bounds recursion; `s.length` always suffices. -/
def findNumbersAux : Nat → List Char → List (List Char)
  | 0, _ => []
  | _ + 1, [] => []
  | fuel + 1, c :: t =>
    if isDigitChar c then
      let run := takeDigitRun (c :: t)
      match run.2 with
      | '.' :: r2 =>
        let frac := takeDigitRun r2
        if frac.1.isEmpty then run.1 :: findNumbersAux fuel run.2
        else (run.1 ++ '.' :: frac.1) :: findNumbersAux fuel frac.2
      | _ => run.1 :: findNumbersAux fuel run.2
    else findNumbersAux fuel t

def findNumbers (s : List Char) : List (List Char) :=
  findNumbersAux s.length s

/-- `float(tok)` on a findall token (digits, optionally dot digits),
as an exact rational. -/
def ratOfNumTok (tok : List Char) : ℚ :=
  let intPart := tok.takeWhile isDigitChar
  match tok.dropWhile isDigitChar with
  | '.' :: frac =>
      (natOfDigits intPart : ℚ) + (natOfDigits frac : ℚ) / ((10 : ℚ) ^ frac.length)
  | _ => (natOfDigits intPart : ℚ)

/-- `str(s).replace('.', '').replace(',', '.')`. -/
def normalizeAmountText (s : List Char) : List Char :=
  (s.filter (fun c => c ≠ '.')).map (fun c => if c = ',' then '.' else c)

/-! ### Payloads and the two API conversion loops (grants.py) -/

structure SearchPayload where
  name : Option (List Char)
  title : Option (List Char)
  type : Option (List Char)
  category : Option (List Char)
  funder : Option (List Char)
  what_is_funded : Option (List Char)
  who_is_funded : Option (List Char)
  region : Option (List Char)
  description : Option (List Char)
  deadline : Option (List Char)
  is_continuous : Bool
  max_funding : Option ℚ
  funding_amount : Option (List Char)
  url : Option (List Char)
  website_url : Option (List Char)
  external_id : Option (List Char)
  historical_success_rate : Option ℚ
deriving DecidableEq, Repr

/-- A vector-store search hit: `str(result['id'])`, `result['score']`,
`result['payload']`. -/
structure SearchResult where
  rid : List Char
  score : ℚ
  payload : SearchPayload
deriving DecidableEq, Repr

/-- Python truthiness of an optional string. -/
def strTruthy : Option (List Char) → Bool
  | none => false
  | some s => !s.isEmpty

/-- Python `a or b` on optional strings: `b` when `a` is `None` or empty. -/
def orStr (a : Option (List Char)) (b : List Char) : List Char :=
  if strTruthy a then a.getD [] else b

/-- `payload.get('funding_amount', 'Nicht angegeben')` free-text branch of the
search route (lines 163-171): only fires when the text is truthy and contains
"bis"; takes `float(numbers[-1])`, else leaves 0. -/
def searchFundingFromText (p : SearchPayload) : ℚ :=
  let fs := p.funding_amount.getD "Nicht angegeben".data
  if !fs.isEmpty && containsSub "bis".data (lowerStr fs) then
    match (findNumbers (normalizeAmountText fs)).getLast? with
    | some tok => ratOfNumTok tok
    | none => 0
  else 0

/-- Search-route funding extraction (lines 159-171): a present truthy
`max_funding` wins, otherwise the free-text branch. -/
def searchMaxFunding (p : SearchPayload) : ℚ :=
  match p.max_funding with
  | some v => if v ≠ 0 then v else searchFundingFromText p
  | none => searchFundingFromText p

def grantTypeEnum : List (List Char) :=
  ["federal".data, "state".data, "eu".data, "municipal".data]

def grantCategoryEnum : List (List Char) :=
  ["innovation".data, "digitalization".data, "green_tech".data,
   "export".data, "training".data, "regional".data]

def stateKeywords : List (List Char) :=
  ["bayern".data, "sachsen".data, "nrw".data, "hamburg".data,
   "berlin".data, "baden".data, "hessen".data]

/-- Search-route type inference (lines 176-185). -/
def inferGrantType (p : SearchPayload) : List Char :=
  let gt := p.type.getD "federal".data
  if gt ∈ grantTypeEnum then gt
  else
    let funder := lowerStr (p.funder.getD [])
    if containsSub "bund".data funder || containsSub "bmw".data funder ||
       containsSub "bafa".data funder || containsSub "kfw".data funder then
      "federal".data
    else if stateKeywords.any (fun st => containsSub st (lowerStr funder)) then
      "state".data
    else
      "state".data

/-- Search-route category inference (lines 187-198). -/
def inferGrantCategory (p : SearchPayload) : List Char :=
  let gc := p.category.getD "digitalization".data
  if gc ∈ grantCategoryEnum then gc
  else
    let wf := lowerStr (p.what_is_funded.getD [])
    if containsSub "innovation".data wf || containsSub "forschung".data wf then
      "innovation".data
    else if containsSub "digital".data wf || containsSub "it".data wf then
      "digitalization".data
    else if containsSub "klima".data wf || containsSub "umwelt".data wf ||
            containsSub "energie".data wf then
      "green_tech".data
    else
      "digitalization".data

/-- Search-route deadline rewrite (lines 200-203): `'Laufend'` when the raw
deadline equals `'Laufend'` or the payload is flagged continuous. -/
def searchDeadline (p : SearchPayload) : Option (List Char) :=
  if p.deadline = some "Laufend".data || p.is_continuous then
    some "Laufend".data
  else p.deadline

/-- The canonical `Grant` response shape. -/
structure Grant where
  id : List Char
  name : List Char
  gtype : List Char
  gcategory : List Char
  max_funding : ℚ
  deadline : Option (List Char)
  description : List Char
  eligibility : List (List Char)
  success_rate : ℚ
  match_score : Option ℚ
deriving DecidableEq, Repr

/-- One converted search hit (grants.py lines 209-224). -/
def mkSearchGrant (r : SearchResult) : Grant :=
  let p := r.payload
  { id := orStr p.url (orStr p.website_url (orStr p.external_id r.rid))
    name := orStr p.name (orStr p.title "Unbekannt".data)
    gtype := inferGrantType p
    gcategory := inferGrantCategory p
    max_funding := searchMaxFunding p
    deadline := searchDeadline p
    description := (orStr p.description []).take 500
    eligibility :=
      [orStr p.who_is_funded "Nicht angegeben".data,
       "Fördergeber: ".data ++ orStr p.funder "Nicht angegeben".data,
       "Region: ".data ++ orStr p.region "Deutschland".data]
    success_rate := match p.historical_success_rate with
      | some v => if v ≠ 0 then v else 3/5
      | none => 3/5
    match_score := some r.score }

/-- The search-route conversion loop (lines 152-225): break once 10 grants
are collected, skip hits whose (rewritten) deadline is invalid. -/
def searchLoop (today : PyDate) : List SearchResult → List Grant → List Grant
  | [], acc => acc
  | r :: rs, acc =>
    if 10 ≤ acc.length then acc
    else if is_deadline_valid today (searchDeadline r.payload) then
      searchLoop today rs (acc ++ [mkSearchGrant r])
    else
      searchLoop today rs acc

/-- `search_grants` after retrieval: convert the raw hits. -/
def search_grants_convert (today : PyDate) (results : List SearchResult) : List Grant :=
  searchLoop today results []

/-- A scroll hit of the listing route (no score). -/
structure ListResult where
  rid : List Char
  payload : SearchPayload
deriving DecidableEq, Repr

/-- Listing-route funding extraction (lines 320-329): `float(payload.get('max_funding', 0))`,
and only when that is exactly 0, the free-text branch (which here does not
require the text to be truthy, only to contain "bis"). -/
def listMaxFunding (p : SearchPayload) : ℚ :=
  let mf := p.max_funding.getD 0
  if mf = 0 then
    let fs := p.funding_amount.getD []
    if containsSub "bis".data (lowerStr fs) then
      match (findNumbers (normalizeAmountText fs)).getLast? with
      | some tok => ratOfNumTok tok
      | none => 0
    else 0
  else mf

/-- One converted listing hit (lines 331-345): `type` and `category` are
passed through with defaults, with no enum validation or inference. -/
def mkListGrant (r : ListResult) : Grant :=
  let p := r.payload
  { id := orStr p.url (orStr p.external_id r.rid)
    name := orStr p.name (orStr p.title "Unbekannt".data)
    gtype := p.type.getD "federal".data
    gcategory := p.category.getD "digitalization".data
    max_funding := listMaxFunding p
    deadline := some (p.deadline.getD "Laufend".data)
    description := (orStr p.description []).take 500
    eligibility :=
      [orStr p.who_is_funded "Nicht angegeben".data,
       "Fördergeber: ".data ++ orStr p.funder "Nicht angegeben".data]
    success_rate := p.historical_success_rate.getD (3/5)
    match_score := none }

/-- The listing-route conversion loop (lines 311-346): no cap, skip hits with
an invalid deadline (default `'Laufend'` when the key is absent). -/
def list_grants_convert (today : PyDate) : List ListResult → List Grant
  | [] => []
  | r :: rs =>
    if is_deadline_valid today (some (r.payload.deadline.getD "Laufend".data)) then
      mkListGrant r :: list_grants_convert today rs
    else
      list_grants_convert today rs

/-! ### Query composition (`search_grants` lines 118-139) -/

structure GrantSearch where
  company_size : Option Int
  industry : Option (List Char)
  project_description : Option (List Char)
  budget : Option ℚ
  location : Option (List Char)
deriving DecidableEq, Repr

def intTruthy : Option Int → Bool
  | none => false
  | some v => v ≠ 0

def ratTruthy : Option ℚ → Bool
  | none => false
  | some v => v ≠ 0

def natDigitsAux : Nat → Nat → List Char
  | 0, _ => []
  | _ + 1, 0 => []
  | fuel + 1, n => natDigitsAux fuel (n / 10) ++ [Char.ofNat ('0'.toNat + n % 10)]

def natToStr (n : Nat) : List Char :=
  if n = 0 then "0".data else natDigitsAux n n

def intToStr (i : Int) : List Char :=
  if i < 0 then '-' :: natToStr i.natAbs else natToStr i.natAbs

/-- Decimal rendering of a rational for the query text.  Python would render
its floats slightly differently; no claim depends on the rendered digits,
only on whether a part is appended at all. -/
def ratToStr (q : ℚ) : List Char :=
  if q.den = 1 then intToStr q.num
  else intToStr q.num ++ '/' :: natToStr q.den

/-- The `query_parts` list: one entry per truthy field, in source order. -/
def queryParts (p : GrantSearch) : List (List Char) :=
  (if strTruthy p.project_description then [p.project_description.getD []] else []) ++
  (if strTruthy p.industry then ["Branche: ".data ++ p.industry.getD []] else []) ++
  (if intTruthy p.company_size then
     ["Unternehmensgröße: ".data ++ intToStr (p.company_size.getD 0) ++ " Mitarbeiter".data]
   else []) ++
  (if ratTruthy p.budget then
     ["Budget: ".data ++ ratToStr (p.budget.getD 0) ++ " EUR".data]
   else []) ++
  (if strTruthy p.location then ["Standort: ".data ++ p.location.getD []] else [])

/-- `search_grants` raises HTTP 400 (`InvalidQuery`) iff `query_parts` is empty. -/
def search_raises_invalid_query (p : GrantSearch) : Bool :=
  (queryParts p).isEmpty

/-! ### The matcher service (grant_matcher.py) -/

structure MatcherPayload where
  max_funding : Option ℚ
  historical_success_rate : Option ℚ
  /-- `none`: "deadline" key absent or value falsy; `some none`: present but
  `fromisoformat` raises; `some (some d)`: parses, `d` days until now
  (floored, as `timedelta.days`). -/
  deadline_days : Option (Option Int)
  is_continuous : Bool
deriving DecidableEq, Repr

structure MatcherResult where
  score : ℚ
  payload : MatcherPayload
deriving DecidableEq, Repr

/-- The budget rule of `_filter_by_criteria` (lines 103-106):
`if budget and "max_funding" in payload: if budget > payload["max_funding"]`. -/
def budgetDrops (budget : Option ℚ) (p : MatcherPayload) : Bool :=
  match budget, p.max_funding with
  | some b, some mf => decide (b ≠ 0) && decide (mf < b)
  | _, _ => false

/-- The deadline rule of `_filter_by_criteria` (lines 108-115): drop only
when the deadline parses and lies strictly in the past. -/
def deadlineDrops (p : MatcherPayload) : Bool :=
  match p.deadline_days with
  | some (some d) => decide (d < 0)
  | _ => false

/-- `GrantMatcher._filter_by_criteria` (lines 90-121). -/
def filter_by_criteria (budget : Option ℚ) (results : List MatcherResult) :
    List MatcherResult :=
  results.filter (fun r => !budgetDrops budget r.payload && !deadlineDrops r.payload)

structure RankedResult where
  score : ℚ
  payload : MatcherPayload
  match_score : ℚ
deriving DecidableEq, Repr

/-- Success-rate boost (lines 137-140): applied only when the key is present. -/
def successBoost (p : MatcherPayload) : ℚ :=
  match p.historical_success_rate with
  | some r => 1 + r * (1/2)
  | none => 1

/-- Urgency boost (lines 142-152): applied only to a present, truthy,
non-continuous deadline that `fromisoformat` accepts. -/
def urgencyMultiplier (p : MatcherPayload) : ℚ :=
  match p.deadline_days, p.is_continuous with
  | some (some d), false => if d < 30 then 6/5 else if d < 60 then 11/10 else 1
  | _, _ => 1

/-- Per-candidate score computation of `_rank_grants` (lines 130-154). -/
def computeScore (r : MatcherResult) : RankedResult :=
  ⟨r.score, r.payload, r.score * successBoost r.payload * urgencyMultiplier r.payload⟩

/-- `GrantMatcher._rank_grants` (lines 123-159): attach `match_score`, then
`results.sort(key=..., reverse=True)` — a stable descending sort, which is
exactly insertion sort with the relation "later score at most earlier score". -/
def rank_grants (results : List MatcherResult) : List RankedResult :=
  List.insertionSort (fun a b => b.match_score ≤ a.match_score)
    (results.map computeScore)

/-! ### Spec-side definitions, for comparison with the code

These two follow the specification text rather than the source; they exist
only to be compared against the code-derived definitions above. -/

/-- Modelled from the spec (§4.4 budget rule): exclude iff a budget is
supplied, `max_funding` is present AND strictly positive, and the budget
exceeds it. -/
def specBudgetExcluded (budget : Option ℚ) (p : MatcherPayload) : Bool :=
  match budget, p.max_funding with
  | some b, some mf => decide (0 < mf) && decide (mf < b)
  | _, _ => false

/-- Modelled from the spec (§4.6): the maximum of all extracted numbers. -/
def specMaxFromText (fs : List Char) : ℚ :=
  ((findNumbers (normalizeAmountText fs)).map ratOfNumTok).foldr max 0

/-! ### Order instances for the ranking relation, and concrete test data -/

instance : IsTotal RankedResult (fun a b => b.match_score ≤ a.match_score) :=
  ⟨fun a b => le_total b.match_score a.match_score⟩

instance : IsTrans RankedResult (fun a b => b.match_score ≤ a.match_score) :=
  ⟨fun _ _ _ hab hbc => le_trans hbc hab⟩

/-- An empty payload (every key absent). -/
def emptyPayload : SearchPayload :=
  ⟨none, none, none, none, none, none, none, none, none, none, false,
   none, none, none, none, none, none⟩

/-- A payload whose funding amount is free text where the last number is not
the largest. -/
def exBisTextPayload : SearchPayload :=
  { emptyPayload with funding_amount := some "bis 500 Euro oder 100".data }

/-- A payload with the spec's free-text example amount. -/
def exBis550Payload : SearchPayload :=
  { emptyPayload with funding_amount := some "bis zu 550.000 Euro".data }

/-- A payload with an out-of-enum `type` value. -/
def exBogusTypePayload : SearchPayload :=
  { emptyPayload with type := some "bogus".data }

/-- A search hit whose payload has neither `name` nor `title`. -/
def exNoNameResult : SearchResult := ⟨"id1".data, 1/2, emptyPayload⟩

/-- A continuous-deadline search hit. -/
def exLaufendResult : SearchResult :=
  ⟨"u".data, 1, { emptyPayload with deadline := some "Laufend".data }⟩

/-- Matcher candidate: similarity 1/2, success rate 9/10, no deadline. -/
def exHighRate : MatcherResult := ⟨1/2, ⟨none, some (9/10), none, false⟩⟩

/-- Matcher candidate: similarity 1/2, success rate 4/5, deadline in 5 days. -/
def exUrgent : MatcherResult := ⟨1/2, ⟨none, some (4/5), some (some 5), false⟩⟩

/-- Like `exUrgent` but with the deadline 100 days away. -/
def exLeisurely : MatcherResult := ⟨1/2, ⟨none, some (4/5), some (some 100), false⟩⟩

/-- Matcher candidate with `max_funding` present and equal to 0. -/
def exZeroCeiling : MatcherResult := ⟨1/2, ⟨some 0, none, none, false⟩⟩

/-- Matcher candidate with `max_funding = 100000`. -/
def exCeiling100k : MatcherResult := ⟨1/2, ⟨some 100000, none, none, false⟩⟩

/-! ## Theorems -/

theorem rank_sorted (l : List MatcherResult) :
    (rank_grants l).Sorted (fun a b => b.match_score ≤ a.match_score) :=
  List.sorted_insertionSort _ _

theorem rank_perm (l : List MatcherResult) :
    (rank_grants l).Perm (l.map computeScore) :=
  List.perm_insertionSort _ _

theorem rank_stable_filter (l : List MatcherResult) (v : ℚ) :
    (rank_grants l).filter (fun c => decide (c.match_score = v)) =
      (l.map computeScore).filter (fun c => decide (c.match_score = v)) := by
  set p : RankedResult → Bool := fun c => decide (c.match_score = v)
  set c := (l.map computeScore).filter p
  have hmem : ∀ x ∈ c, p x = true := fun x hx => List.of_mem_filter hx
  have hpair : c.Pairwise (fun a b => b.match_score ≤ a.match_score) := by
    refine List.pairwise_of_forall_mem_list (fun a ha b hb => ?_)
    have ha2 : a.match_score = v := of_decide_eq_true (hmem a ha)
    have hb2 : b.match_score = v := of_decide_eq_true (hmem b hb)
    rw [ha2, hb2]
  have hsub : List.Sublist c (rank_grants l) :=
    List.sublist_insertionSort hpair (List.filter_sublist _)
  have hsub2 : List.Sublist c ((rank_grants l).filter p) := by
    have h3 := List.Sublist.filter p hsub
    rwa [List.filter_eq_self.mpr hmem] at h3
  have hperm : ((rank_grants l).filter p).Perm c := (rank_perm l).filter p
  exact (hsub2.eq_of_length hperm.length_eq.symm).symm

theorem sorted_get_lt {L : List RankedResult}
    (hs : L.Sorted (fun a b => b.match_score ≤ a.match_score))
    (ia ib : Fin L.length)
    (hlt : (L.get ib).match_score < (L.get ia).match_score) :
    (ia : ℕ) < (ib : ℕ) := by
  by_contra hcon
  push_neg at hcon
  rcases eq_or_lt_of_le hcon with heq | hlt2
  · have hfin : ib = ia := Fin.ext heq
    rw [hfin] at hlt
    exact lt_irrefl _ hlt
  · have h4 : ib < ia := hlt2
    have h5 := hs.rel_get_of_lt h4
    exact absurd hlt (not_lt.mpr h5)

theorem urgency_pos (p : MatcherPayload) : 0 < urgencyMultiplier p := by
  rcases hdd : p.deadline_days with _ | od
  · simp [urgencyMultiplier, hdd]
  · rcases od with _ | d
    · simp [urgencyMultiplier, hdd]
    · rcases hic : p.is_continuous with _ | _
      · simp only [urgencyMultiplier, hdd, hic]
        split_ifs <;> norm_num
      · simp [urgencyMultiplier, hdd, hic]

theorem urgency_default (p : MatcherPayload)
    (h : p.is_continuous = true ∨ p.deadline_days = none ∨ p.deadline_days = some none) :
    urgencyMultiplier p = 1 := by
  rcases hdd : p.deadline_days with _ | od
  · simp [urgencyMultiplier, hdd]
  · rcases od with _ | d
    · simp [urgencyMultiplier, hdd]
    · rcases h with h | h | h
      · simp [urgencyMultiplier, hdd, h]
      · rw [hdd] at h
        exact absurd h (by simp)
      · rw [hdd] at h
        exact absurd h (by simp)

theorem successBoost_congr {p q : MatcherPayload}
    (h : p.historical_success_rate = q.historical_success_rate) :
    successBoost p = successBoost q := by
  unfold successBoost
  rw [h]

/-- Claim C1: for every candidate list, `rank` computes each candidate's
final score as similarity times (1 + historical success rate times 0.5)
times the urgency multiplier (1.2 under 30 days to a parseable
non-continuous deadline, 1.1 under 60, 1.0 otherwise, including continuous
or unparseable deadlines), and returns the candidates sorted descending by
this final score. -/
theorem c1_rank_formula_and_order (l : List MatcherResult) :
    (rank_grants l).Sorted (fun a b => b.match_score ≤ a.match_score)
    ∧ (rank_grants l).Perm (l.map computeScore)
    ∧ (∀ (r : MatcherResult) (sr : ℚ),
        r.payload.historical_success_rate = some sr →
        (computeScore r).match_score
          = r.score * (1 + sr * (1/2)) * urgencyMultiplier r.payload)
    ∧ (∀ (p : MatcherPayload) (d : ℤ),
        p.deadline_days = some (some d) → p.is_continuous = false →
        urgencyMultiplier p = if d < 30 then 6/5 else if d < 60 then 11/10 else 1)
    ∧ (∀ p : MatcherPayload,
        p.is_continuous = true ∨ p.deadline_days = none ∨ p.deadline_days = some none →
        urgencyMultiplier p = 1) := by
  refine ⟨rank_sorted l, rank_perm l, ?_, ?_, urgency_default⟩
  · intro r sr h
    simp [computeScore, successBoost, h]
  · intro p d h1 h2
    simp [urgencyMultiplier, h1, h2]

/-- Witness for C1 at the spec §8 end-to-end candidate (similarity 0.75,
success rate 0.8, far-future deadline). -/
theorem c1_witness :
    (computeScore ⟨3/4, ⟨some 500000, some (4/5), some (some 26378), false⟩⟩).match_score
      = (3/4 : ℚ) * (1 + (4/5) * (1/2))
          * urgencyMultiplier ⟨some 500000, some (4/5), some (some 26378), false⟩ :=
  (c1_rank_formula_and_order []).2.2.1
    ⟨3/4, ⟨some 500000, some (4/5), some (some 26378), false⟩⟩ (4/5) rfl

/-- Counterexample to C9 as stated: `exHighRate` and `exUrgent` have equal
similarity 1/2, `exHighRate` has the strictly higher success rate (9/10 vs
4/5), yet ranking places `exUrgent` first because of its urgency boost, so
equal similarity alone does not make rank monotone in the success rate. -/
theorem c9_counterexample :
    rank_grants [exHighRate, exUrgent] = [computeScore exUrgent, computeScore exHighRate]
    ∧ exHighRate.score = exUrgent.score
    ∧ (4/5 : ℚ) < 9/10
    ∧ exHighRate.payload.historical_success_rate = some (9/10)
    ∧ exUrgent.payload.historical_success_rate = some (4/5) := by
  refine ⟨?_, rfl, by norm_num, rfl, rfl⟩
  norm_num [rank_grants, List.insertionSort, List.orderedInsert, computeScore,
    successBoost, urgencyMultiplier, exHighRate, exUrgent]

/-- Claim C9, amended: with equal similarity AND equal urgency multiplier
(and positive similarity), the candidate with the higher success rate ranks
strictly above; with everything equal except urgency, the candidate with
fewer than 30 days remaining ranks strictly above the one with more than 60;
ties in the composite score keep the original order (stable sort). -/
theorem c9_amended (l : List MatcherResult) :
    (rank_grants l).Sorted (fun a b => b.match_score ≤ a.match_score)
    ∧ (∀ v : ℚ, (rank_grants l).filter (fun c => decide (c.match_score = v))
        = (l.map computeScore).filter (fun c => decide (c.match_score = v)))
    ∧ (∀ (a b : MatcherResult) (ia ib : Fin (rank_grants l).length) (ra rb : ℚ),
        (rank_grants l).get ia = computeScore a →
        (rank_grants l).get ib = computeScore b →
        a.score = b.score → 0 < a.score →
        urgencyMultiplier a.payload = urgencyMultiplier b.payload →
        a.payload.historical_success_rate = some ra →
        b.payload.historical_success_rate = some rb →
        rb < ra → (ia : ℕ) < (ib : ℕ))
    ∧ (∀ (a b : MatcherResult) (ia ib : Fin (rank_grants l).length) (da db : ℤ),
        (rank_grants l).get ia = computeScore a →
        (rank_grants l).get ib = computeScore b →
        a.score = b.score → 0 < a.score →
        a.payload.historical_success_rate = b.payload.historical_success_rate →
        0 < successBoost a.payload →
        a.payload.deadline_days = some (some da) → a.payload.is_continuous = false →
        da < 30 →
        b.payload.deadline_days = some (some db) → b.payload.is_continuous = false →
        60 < db →
        (ia : ℕ) < (ib : ℕ)) := by
  refine ⟨rank_sorted l, rank_stable_filter l, ?_, ?_⟩
  · intro a b ia ib ra rb hga hgb hsim hpos hurg hra hrb hlt
    apply sorted_get_lt (rank_sorted l) ia ib
    rw [hga, hgb]
    show (computeScore b).match_score < (computeScore a).match_score
    unfold computeScore successBoost
    rw [hra, hrb, hsim, hurg]
    have hu := urgency_pos b.payload
    have hboost : 1 + rb * (1/2) < 1 + ra * (1/2) := by linarith
    have hbase : b.score * (1 + rb * (1/2)) < b.score * (1 + ra * (1/2)) := by
      have := hsim ▸ hpos
      exact mul_lt_mul_of_pos_left hboost this
    exact mul_lt_mul_of_pos_right hbase hu
  · intro a b ia ib da db hga hgb hsim hpos hrate hboost hda hca hda30 hdb hcb hdb60
    apply sorted_get_lt (rank_sorted l) ia ib
    rw [hga, hgb]
    show (computeScore b).match_score < (computeScore a).match_score
    have hua : urgencyMultiplier a.payload = 6/5 := by
      simp [urgencyMultiplier, hda, hca, hda30]
    have hub : urgencyMultiplier b.payload = 1 := by
      have h1 : ¬ db < 30 := by omega
      have h2 : ¬ db < 60 := by omega
      simp [urgencyMultiplier, hdb, hcb, h1, h2]
    have hbeq : successBoost b.payload = successBoost a.payload :=
      successBoost_congr hrate.symm
    unfold computeScore
    rw [hua, hub, hbeq, ← hsim]
    have hb2 : 0 < a.score * successBoost a.payload := mul_pos hpos hboost
    nlinarith

/-- Witness for C9 (amended) on a concrete two-candidate list: the urgent
candidate (5 days) is placed strictly above the leisurely one (100 days). -/
theorem c9_witness :
    (rank_grants [exUrgent, exLeisurely]).length = 2 ∧ (0 : ℕ) < 1 := by
  have hlen : (rank_grants [exUrgent, exLeisurely]).length = 2 := by
    simp only [rank_grants, List.length_insertionSort, List.length_map,
      List.length_cons, List.length_nil]
  refine ⟨hlen, ?_⟩
  have h0 : (0 : ℕ) < (rank_grants [exUrgent, exLeisurely]).length := by
    rw [hlen]; norm_num
  have h1 : (1 : ℕ) < (rank_grants [exUrgent, exLeisurely]).length := by
    rw [hlen]; norm_num
  have hga : (rank_grants [exUrgent, exLeisurely]).get ⟨0, h0⟩ = computeScore exUrgent := by
    norm_num [rank_grants, List.insertionSort, List.orderedInsert, computeScore,
      successBoost, urgencyMultiplier, exUrgent, exLeisurely]
  have hgb : (rank_grants [exUrgent, exLeisurely]).get ⟨1, h1⟩ = computeScore exLeisurely := by
    norm_num [rank_grants, List.insertionSort, List.orderedInsert, computeScore,
      successBoost, urgencyMultiplier, exUrgent, exLeisurely]
  exact (c9_amended [exUrgent, exLeisurely]).2.2.2 exUrgent exLeisurely
    ⟨0, h0⟩ ⟨1, h1⟩ 5 100 hga hgb rfl (by norm_num [exUrgent]) rfl
    (by norm_num [successBoost, exUrgent]) rfl rfl (by norm_num) rfl rfl (by norm_num)

/-- Counterexample to C2 as stated: `exZeroCeiling` has `max_funding`
present and equal to 0, which is not strictly positive, so the claim says
the candidate is retained; the filter drops it (Python only tests key
presence, not positivity). -/
theorem c2_counterexample :
    filter_by_criteria (some 200000) [exZeroCeiling] = []
    ∧ specBudgetExcluded (some 200000) exZeroCeiling.payload = false := by
  constructor <;> decide

/-- Claim C2, amended: a candidate passing the deadline rule is dropped iff
the budget is supplied and nonzero, `max_funding` is present, and the budget
strictly exceeds it — with no positivity requirement on `max_funding`; a
candidate without the `max_funding` key is always retained. -/
theorem c2_amended :
    (∀ (budget : Option ℚ) (l : List MatcherResult) (c : MatcherResult),
        deadlineDrops c.payload = false →
        (c ∈ filter_by_criteria budget l ↔
          c ∈ l ∧ budgetDrops budget c.payload = false))
    ∧ (∀ (b : ℚ) (p : MatcherPayload),
        budgetDrops (some b) p = true ↔
          (b ≠ 0 ∧ ∃ mf, p.max_funding = some mf ∧ mf < b))
    ∧ (∀ (budget : Option ℚ) (p : MatcherPayload),
        p.max_funding = none → budgetDrops budget p = false) := by
  refine ⟨?_, ?_, ?_⟩
  · intro budget l c hdl
    simp [filter_by_criteria, List.mem_filter, hdl]
  · intro b p
    cases hmf : p.max_funding with
    | none => simp [budgetDrops, hmf]
    | some mf => simp [budgetDrops, hmf]
  · intro budget p h
    cases budget with
    | none => simp [budgetDrops]
    | some b => simp [budgetDrops, h]

/-- Witness for C2 (amended): a 50000 budget keeps the 100000-ceiling
candidate; a 200000 budget triggers the drop condition. -/
theorem c2_witness :
    exCeiling100k ∈ filter_by_criteria (some 50000) [exCeiling100k]
    ∧ budgetDrops (some 200000) exCeiling100k.payload = true := by
  constructor
  · exact (c2_amended.1 (some 50000) [exCeiling100k] exCeiling100k rfl).mpr
      ⟨List.mem_cons_self _ _, by decide⟩
  · exact (c2_amended.2.1 200000 exCeiling100k.payload).mpr
      ⟨by norm_num, 100000, rfl, by norm_num⟩

/-- Counterexample to C5 as stated: on "bis 500 Euro oder 100" the code
takes the LAST extracted number (100), not the maximum (500). -/
theorem c5_counterexample :
    searchMaxFunding exBisTextPayload = 100
    ∧ specMaxFromText "bis 500 Euro oder 100".data = 500 := by
  constructor <;> decide

/-- Claim C5, amended: when the funding amount is absent or zero and
arrives as free text containing "bis", normalization extracts all numeric
substrings (after the dot/comma rewrites) and sets `max_funding` to the
LAST extracted number, not the maximum. -/
theorem c5_amended (p : SearchPayload) (fs tok : List Char)
    (hmf : p.max_funding = none ∨ p.max_funding = some 0)
    (hfa : p.funding_amount = some fs) (hne : fs ≠ [])
    (hbis : containsSub "bis".data (lowerStr fs) = true)
    (hlast : (findNumbers (normalizeAmountText fs)).getLast? = some tok) :
    searchMaxFunding p = ratOfNumTok tok := by
  have hie : fs.isEmpty = false := by
    cases fs with
    | nil => exact absurd rfl hne
    | cons a t => rfl
  have hfromtext : searchFundingFromText p = ratOfNumTok tok := by
    simp only [searchFundingFromText, hfa, Option.getD_some, hie, hbis, hlast,
      Bool.not_false, Bool.and_self, if_true]
  rcases hmf with h | h
  · unfold searchMaxFunding
    rw [h]
    exact hfromtext
  · unfold searchMaxFunding
    rw [h]
    simp [hfromtext]

/-- Witness for C5 (amended) at the spec's free-text example. -/
theorem c5_witness :
    searchMaxFunding exBis550Payload = ratOfNumTok "550000".data :=
  c5_amended exBis550Payload "bis zu 550.000 Euro".data "550000".data
    (Or.inl rfl) rfl (by decide) (by decide) (by decide)

/-- Counterexample to C7 as stated: a request whose only supplied field is
`company_size = 0` still raises the invalid-query error, because Python
treats a zero numeric field as falsy. -/
theorem c7_counterexample :
    search_raises_invalid_query ⟨some 0, none, none, none, none⟩ = true
    ∧ (⟨some 0, none, none, none, none⟩ : GrantSearch).company_size ≠ none := by
  constructor <;> decide

/-- Claim C7, amended: the search raises the invalid-query client error iff
every field is falsy — description, industry and location absent or empty,
company size and budget absent or equal to zero. -/
theorem c7_amended (p : GrantSearch) :
    search_raises_invalid_query p = true ↔
      (strTruthy p.project_description = false ∧ strTruthy p.industry = false ∧
       intTruthy p.company_size = false ∧ ratTruthy p.budget = false ∧
       strTruthy p.location = false) := by
  unfold search_raises_invalid_query queryParts
  cases h1 : strTruthy p.project_description <;>
    cases h2 : strTruthy p.industry <;>
      cases h3 : intTruthy p.company_size <;>
        cases h4 : ratTruthy p.budget <;>
          cases h5 : strTruthy p.location <;>
            simp [h1, h2, h3, h4, h5]

/-- Counterexample to C8 as stated: the listing route passes an
out-of-enum `type` value straight through instead of re-deriving it. -/
theorem c8_counterexample :
    (list_grants_convert ⟨2026, 10, 12⟩ [⟨"x".data, exBogusTypePayload⟩]).map
        (fun g => g.gtype) = ["bogus".data]
    ∧ "bogus".data ∉ grantTypeEnum := by
  constructor <;> decide

/-- Claim C8, amended: the SEARCH route always resolves `type` and
`category` to enumerated values via the keyword-inference fallback; the
LISTING route substitutes defaults only for absent keys and passes payload
values through without enum validation. -/
theorem c8_amended :
    (∀ p : SearchPayload,
        inferGrantType p ∈ grantTypeEnum ∧ inferGrantCategory p ∈ grantCategoryEnum)
    ∧ (∀ r : SearchResult,
        (mkSearchGrant r).gtype = inferGrantType r.payload
        ∧ (mkSearchGrant r).gcategory = inferGrantCategory r.payload)
    ∧ (∀ r : ListResult,
        (mkListGrant r).gtype = r.payload.type.getD "federal".data
        ∧ (mkListGrant r).gcategory = r.payload.category.getD "digitalization".data) := by
  refine ⟨?_, fun r => ⟨rfl, rfl⟩, fun r => ⟨rfl, rfl⟩⟩
  intro p
  constructor
  · simp only [inferGrantType]
    split_ifs with h1 h2 h3
    · exact h1
    · decide
    · decide
    · decide
  · simp only [inferGrantCategory]
    split_ifs with h1 h2 h3 h4
    · exact h1
    · decide
    · decide
    · decide
    · decide

theorem tryPatterns_of_findSome (today : PyDate) :
    ∀ (rs : List (Option (Option PyDate))) (d : PyDate),
      rs.findSome? id = some (some d) → tryPatterns today rs = dateLe today d := by
  intro rs
  induction rs with
  | nil =>
    intro d h
    simp [List.findSome?] at h
  | cons x rest ih =>
    intro d h
    rw [List.findSome?_cons] at h
    rcases x with _ | od
    · simp only [id_eq] at h
      exact ih d h
    · rcases od with _ | d0
      · simp only [id_eq] at h
        exact absurd h (by simp)
      · simp only [id_eq, Option.some.injEq] at h
        rw [← h]
        rfl

/-- Claim C3: for every deadline string, the validator tries the five
patterns in the listed order, stops at the first (textual) match — here with
a successfully constructed date — and returns true iff that date is at
least today. -/
theorem c3_pattern_order (today : PyDate) (s : List Char) (d : PyDate)
    (h0 : s ≠ []) (h1 : stripStr (lowerStr s) ∉ continuousSentinels)
    (h2 : (datePatterns.map (fun p => p s)).findSome? id = some (some d)) :
    is_deadline_valid today (some s) = dateLe today d := by
  show (if s = [] then true
      else if stripStr (lowerStr s) ∈ continuousSentinels then true
      else tryPatterns today (datePatterns.map (fun p => p s))) = dateLe today d
  rw [if_neg h0, if_neg h1]
  exact tryPatterns_of_findSome today _ d h2

/-- Witness for C3 at the spec example "2099-01-01". -/
theorem c3_witness :
    is_deadline_valid ⟨2026, 10, 12⟩ (some "2099-01-01".data)
      = dateLe ⟨2026, 10, 12⟩ ⟨2099, 1, 1⟩ :=
  c3_pattern_order ⟨2026, 10, 12⟩ "2099-01-01".data ⟨2099, 1, 1⟩
    (by decide) (by decide) (by decide)

/-- Claim C4: a missing/empty/None deadline, a continuous sentinel
(case-insensitive), or a string matching none of the five patterns is
always valid (fail-open). -/
theorem c4_deadline_fail_open (today : PyDate) (o : Option (List Char))
    (h : o = none ∨ ∃ s, o = some s ∧
        (s = [] ∨ stripStr (lowerStr s) ∈ continuousSentinels ∨
         (datePatterns.map (fun p => p s)).all Option.isNone = true)) :
    is_deadline_valid today o = true := by
  rcases h with rfl | ⟨s, rfl, hs⟩
  · rfl
  · rcases hs with rfl | hsent | hall
    · rfl
    · show (if s = [] then true
          else if stripStr (lowerStr s) ∈ continuousSentinels then true
          else tryPatterns today (datePatterns.map (fun p => p s))) = true
      split_ifs <;> rfl
    · show (if s = [] then true
          else if stripStr (lowerStr s) ∈ continuousSentinels then true
          else tryPatterns today (datePatterns.map (fun p => p s))) = true
      split_ifs with h1 h2
      · rfl
      · rfl
      · simp only [datePatterns, List.map_cons, List.map_nil, List.all_cons,
          List.all_nil, Bool.and_eq_true, Option.isNone_iff_eq_none] at hall
        simp only [datePatterns, List.map_cons, List.map_nil]
        rw [hall.1, hall.2.1, hall.2.2.1, hall.2.2.2.1, hall.2.2.2.2.1]
        rfl

/-- Witness for C4 at the spec's unparseable example. -/
theorem c4_witness :
    is_deadline_valid ⟨2026, 10, 12⟩ (some "next quarter sometime".data) = true :=
  c4_deadline_fail_open ⟨2026, 10, 12⟩ _
    (Or.inr ⟨"next quarter sometime".data, rfl, Or.inr (Or.inr (by decide))⟩)

theorem searchLoop_acc_prefix (today : PyDate) :
    ∀ (rs : List SearchResult) (acc : List Grant),
      ∃ t, searchLoop today rs acc = acc ++ t := by
  intro rs
  induction rs with
  | nil =>
    intro acc
    exact ⟨[], (List.append_nil acc).symm⟩
  | cons r rest ih =>
    intro acc
    rw [searchLoop]
    split_ifs with h1 h2
    · exact ⟨[], (List.append_nil acc).symm⟩
    · obtain ⟨t, ht⟩ := ih (acc ++ [mkSearchGrant r])
      exact ⟨[mkSearchGrant r] ++ t, by rw [ht, List.append_assoc]⟩
    · exact ih acc

/-- Counterexample to C6 as stated: a payload with neither name alias is
NOT skipped; it is returned with the sentinel name "Unbekannt". -/
theorem c6_counterexample :
    (search_grants_convert ⟨2026, 10, 12⟩ [exNoNameResult]).map (fun g => g.name)
      = ["Unbekannt".data]
    ∧ exNoNameResult.payload.name = none
    ∧ exNoNameResult.payload.title = none := by
  refine ⟨?_, rfl, rfl⟩
  decide

/-- Claim C6, amended: a payload missing both name aliases is normalized
with the sentinel name "Unbekannt" and returned (never skipped for missing
names); the rest of the batch is processed exactly as without it. -/
theorem c6_amended (today : PyDate) (r : SearchResult) (rs : List SearchResult)
    (h1 : r.payload.name = none) (h2 : r.payload.title = none)
    (h3 : is_deadline_valid today (searchDeadline r.payload) = true) :
    (mkSearchGrant r).name = "Unbekannt".data
    ∧ search_grants_convert today (r :: rs) = searchLoop today rs [mkSearchGrant r]
    ∧ (search_grants_convert today (r :: rs)).head? = some (mkSearchGrant r) := by
  have hname : (mkSearchGrant r).name = "Unbekannt".data := by
    simp [mkSearchGrant, orStr, strTruthy, h1, h2]
  have hconv : search_grants_convert today (r :: rs)
      = searchLoop today rs [mkSearchGrant r] := by
    rw [search_grants_convert, searchLoop]
    rw [if_neg (by simp), if_pos h3, List.nil_append]
  refine ⟨hname, hconv, ?_⟩
  obtain ⟨t, ht⟩ := searchLoop_acc_prefix today rs [mkSearchGrant r]
  rw [hconv, ht]
  rfl

/-- Witness for C6 (amended) on the nameless payload. -/
theorem c6_witness :
    (search_grants_convert ⟨2026, 10, 12⟩ [exNoNameResult]).head?
      = some (mkSearchGrant exNoNameResult)
    ∧ (mkSearchGrant exNoNameResult).name = "Unbekannt".data := by
  have h := c6_amended ⟨2026, 10, 12⟩ exNoNameResult [] rfl rfl (by decide)
  exact ⟨h.2.2, h.1⟩

theorem searchLoop_full (today : PyDate) :
    ∀ (rs : List SearchResult) (acc : List Grant),
      10 ≤ acc.length → searchLoop today rs acc = acc := by
  intro rs
  induction rs with
  | nil =>
    intro acc _
    rfl
  | cons r rest _ =>
    intro acc h
    rw [searchLoop, if_pos h]

theorem searchLoop_le (today : PyDate) :
    ∀ (rs : List SearchResult) (acc : List Grant),
      acc.length ≤ 10 → (searchLoop today rs acc).length ≤ 10 := by
  intro rs
  induction rs with
  | nil =>
    intro acc h
    exact h
  | cons r rest ih =>
    intro acc h
    rw [searchLoop]
    split_ifs with h1 h2
    · exact h
    · refine ih _ ?_
      simp only [List.length_append, List.length_cons, List.length_nil]
      omega
    · exact ih acc h

theorem searchLoop_append (today : PyDate) :
    ∀ (rs extra : List SearchResult) (acc : List Grant),
      searchLoop today (rs ++ extra) acc
        = searchLoop today extra (searchLoop today rs acc) := by
  intro rs
  induction rs with
  | nil =>
    intro extra acc
    rfl
  | cons r rest ih =>
    intro extra acc
    rw [List.cons_append, searchLoop, searchLoop]
    split_ifs with h1 h2
    · exact (searchLoop_full today extra acc h1).symm
    · exact ih extra _
    · exact ih extra _

/-- Claim C10: the search conversion returns at most 10 grants, and once 10
candidates have survived filtering the loop stops — appending further
candidates to the input changes nothing. -/
theorem c10_cap_and_early_stop (today : PyDate) (rs extra : List SearchResult) :
    (search_grants_convert today rs).length ≤ 10
    ∧ (10 ≤ (search_grants_convert today rs).length →
        search_grants_convert today (rs ++ extra) = search_grants_convert today rs) := by
  constructor
  · exact searchLoop_le today rs [] (by simp)
  · intro h
    unfold search_grants_convert
    rw [searchLoop_append today rs extra []]
    exact searchLoop_full today extra _ h

/-- Witness for C10: with twelve always-valid candidates the cap is
reached, and an extra candidate does not change the output. -/
theorem c10_witness :
    search_grants_convert ⟨2026, 10, 12⟩
        (List.replicate 12 exLaufendResult ++ [exLaufendResult])
      = search_grants_convert ⟨2026, 10, 12⟩ (List.replicate 12 exLaufendResult) :=
  (c10_cap_and_early_stop ⟨2026, 10, 12⟩ (List.replicate 12 exLaufendResult)
    [exLaufendResult]).2 (by decide)

end GrantGPT
